import Mathlib

/-!
Verification development for the async-worker-manager plugin
(src/plugins/async-worker-manager/src/server.py,
src/plugins/async-worker-manager/src/models.py and
src/plugins/async-worker-manager/src/unix_socket_manager.py).

The Python module-level dicts (workers, active_tasks, complete_tasks) and the
per-loop event queue are embedded as an explicit ServerState record; the
stateful tool functions become pure state transformers returning
Except-wrapped results, where an Except.error models a raised exception
(ToolError and the builtin exceptions raised along the way). Python dicts
are embedded as association lists with Python dict semantics: assignment
overwrites in place or appends, pop removes the binding, and keys are
unique.

A decisive fact of this source tree: models.py and the call sites in
server.py disagree. models.Worker, models.ActiveTask and models.CompleteTask
have no timeout field, while create_async_worker passes timeout= to the
Worker constructor (TypeError at server.py:57), _flush_completed_tasks reads
active.timeout (AttributeError at server.py:458 and 484, after the pop), and
resume_worker reads complete_task.timeout (AttributeError at server.py:86,
after the pop). The record types below carry exactly the fields models.py
declares, and the operations below stop at those raise sites with exactly
the side effects already performed.

Notes on host-library behavior that is embedded abstractly:
- json.loads is represented by its outcome: ClaudeJobResult.stdout holds
  (some v) when the captured standard output parses to the JSON value v and
  none when json.loads would raise JSONDecodeError.
- float timeouts carry no arithmetic in the verified code paths, so they are
  embedded as naturals.
-/

/-- JSON values as produced by Python json.loads: None, booleans, numbers
(integral only; no verified path computes with float JSON values), strings,
arrays, and objects (dicts) as key/value association lists. -/
inductive JVal where
  | jnull : JVal
  | jbool (b : Bool) : JVal
  | jnum (n : Int) : JVal
  | jstr (s : String) : JVal
  | jarr (elems : List JVal) : JVal
  | jobj (fields : List (String × JVal)) : JVal

/-- Lookup in a Python dict embedded as an association list
(first binding wins; the operations below keep keys unique). -/
def dictLookup {α : Type} : List (String × α) → String → Option α
  | [], _ => none
  | (k0, v0) :: t, k => if k0 = k then some v0 else dictLookup t k

/-- Python dict assignment d[k] = v: overwrite the binding in place when the
key is present, append a new binding otherwise. -/
def dictInsert {α : Type} : List (String × α) → String → α → List (String × α)
  | [], k, v => [(k, v)]
  | (k0, v0) :: t, k, v =>
      if k0 = k then (k, v) :: t else (k0, v0) :: dictInsert t k v

/-- Python dict.pop(k): remove the binding of k. On the unique-key lists
built by dictInsert this removes at most one binding. -/
def dictRemove {α : Type} (l : List (String × α)) (k : String) :
    List (String × α) :=
  l.filter (fun p => !(p.1 = k : Bool))

/-- In-place mutation of the value stored under a key, as in
d[k].field = x: apply f to the stored value when the key is present,
leave the dict unchanged otherwise. -/
def dictUpdate {α : Type} : List (String × α) → String → (α → α) →
    List (String × α)
  | [], _, _ => []
  | (k0, v0) :: t, k, f =>
      if k0 = k then (k0, f v0) :: t else (k0, v0) :: dictUpdate t k f

/-- Whether pat is a prefix of l (character lists). -/
def isSubAt : List Char → List Char → Bool
  | [], _ => true
  | _ :: _, [] => false
  | p :: ps, c :: cs => p == c && isSubAt ps cs

/-- Whether pat occurs as a contiguous run inside l (character lists). -/
def containsSub (pat : List Char) : List Char → Bool
  | [] => pat.isEmpty
  | c :: cs => isSubAt pat (c :: cs) || containsSub pat cs

/-- The Python substring test `pat in s` on strings. -/
def pyIn (pat s : String) : Bool :=
  containsSub pat.toList s.toList

/-- Python str.lower on the ASCII range (the keyword scan below only tests
ASCII keywords). -/
def pyLower (s : String) : String :=
  String.mk (s.toList.map Char.toLower)

/-- Python str.replace with the one-character pattern newline and the
one-character replacement space, as _generate_error_hint calls it. -/
def pyStripNl (s : String) : String :=
  String.mk (s.toList.map (fun c => if c = '\n' then ' ' else c))

/-- The Python expression `x or dflt` on an optional string: None and the
empty string are falsy and select the default. -/
def pyOrStr (x : Option String) (dflt : String) : String :=
  match x with
  | none => dflt
  | some s => if s = "" then dflt else s

/-- Wire payload of one permission request
(models.PermissionRequest: request_id, worker_id, tool, input). -/
structure PermissionRequest where
  request_id : String
  worker_id : String
  tool : String
  input : JVal

/-- Wire format of a permission decision sent broker to worker
(models.PermissionResponseMessage: request_id, allow, updatedInput present
when allow is true, message present when allow is false). -/
structure PermissionResponseMessage where
  request_id : String
  allow : Bool
  updatedInput : Option JVal
  message : Option String

/-- A parked permission request owned by a broker
(models.PendingPermission). The asyncio.Event readiness signal is embedded
as the boolean eventSet; the always-None socket field is omitted. -/
structure PendingPermission where
  request_id : String
  worker_id : String
  tool : String
  input : JVal
  eventSet : Bool
  response : Option PermissionResponseMessage

/-- Errors raised by unix_socket_manager.UnixSocketManager.approve_request.
requestNotFound embeds the ToolError whose message is
"Permission request {request_id} not found. It may have already been
processed or timed out."; workerMismatch embeds the ToolError whose message
is "Worker ID mismatch: expected {expected}, got {got}". -/
inductive BrokerErr where
  | requestNotFound (request_id : String) : BrokerErr
  | workerMismatch (expected got : String) : BrokerErr

/-- The status dict returned by approve_request:
{status, worker_id, request_id, tool}. -/
structure ApproveStatus where
  status : String
  worker_id : String
  request_id : String
  tool : String

/-- Per-worker IPC broker state (unix_socket_manager.UnixSocketManager).
The live socket objects are not part of the verified state; the broker is
its worker identity, its pending map, the served-request counter and the
rate-limit cap (set to 100 in the constructor). -/
structure UnixSocketManager where
  worker_id : String
  timeout : Nat
  pending : List (String × PendingPermission)
  requestsHandled : Nat
  maxRequests : Nat

/-- UnixSocketManager.__init__: empty pending map, zero served requests,
cap of 100 requests. -/
def initBroker (worker_id : String) (timeout : Nat) : UnixSocketManager :=
  ⟨worker_id, timeout, [], 0, 100⟩

/-- UnixSocketManager.get_pending_requests: the pending map rendered as
PermissionRequest values. -/
def get_pending_requests (m : UnixSocketManager) : List PermissionRequest :=
  m.pending.map (fun p =>
    ⟨p.1, p.2.worker_id, p.2.tool, p.2.input⟩)

/-- UnixSocketManager.approve_request (lines 173-225): fail when the request
id is not pending, fail when the parked entry names a different worker,
otherwise record the decision on the entry (allow: updatedInput is set to
the original input blob; deny: message or the default
"Permission denied by user"), set the readiness event, and return the
status dict. -/
def approve_request (m : UnixSocketManager) (request_id : String)
    (allow : Bool) (message : Option String) :
    Except BrokerErr (UnixSocketManager × ApproveStatus) :=
  match dictLookup m.pending request_id with
  | none => .error (.requestNotFound request_id)
  | some perm =>
    if perm.worker_id ≠ m.worker_id then
      .error (.workerMismatch perm.worker_id m.worker_id)
    else
      let response : PermissionResponseMessage :=
        if allow then ⟨request_id, true, some perm.input, none⟩
        else ⟨request_id, false, none,
          some (pyOrStr message "Permission denied by user")⟩
      let recordDecision : PendingPermission → PendingPermission :=
        fun p => { p with response := some response, eventSet := true }
      let m2 : UnixSocketManager :=
        { m with pending := dictUpdate m.pending request_id recordDecision }
      .ok (m2, ⟨if allow then "approved" else "denied",
                m.worker_id, request_id, perm.tool⟩)

/-- One inbound request line in UnixSocketManager._handle_connection
(lines 293-331): when the served-request counter has reached the cap, reply
at once with the rate-limit denial and park nothing; otherwise insert a
PendingPermission built with the broker's own worker identity (line 309)
and park the handler (no reply yet). The PermissionEvent pushed to the
process-wide queue (line 327) is a server-state effect and is modelled
there. -/
def handleRequestLine (m : UnixSocketManager) (request : PermissionRequest) :
    UnixSocketManager × Option PermissionResponseMessage :=
  if m.maxRequests ≤ m.requestsHandled then
    (m, some ⟨request.request_id, false, none,
        some ("Rate limit exceeded (max " ++ toString m.maxRequests ++ ")")⟩)
  else
    let entry : PendingPermission :=
      ⟨request.request_id, m.worker_id, request.tool, request.input,
       false, none⟩
    ({ m with pending := dictInsert m.pending request.request_id entry }, none)

/-- The parked handler waking after the readiness event
(_handle_connection lines 330-342): read the recorded response, delete the
pending entry, bump the served-request counter, and send the response. The
none branch is unreachable in the source because the handler only wakes for
the entry it inserted. -/
def completeRequest (m : UnixSocketManager) (request_id : String) :
    UnixSocketManager × Option PermissionResponseMessage :=
  match dictLookup m.pending request_id with
  | none => (m, none)
  | some perm =>
      ({ m with pending := dictRemove m.pending request_id,
                requestsHandled := m.requestsHandled + 1 }, perm.response)

/-- Broker states reachable from construction through the operations the
source performs on the pending map: handling an inbound request line,
a parked handler completing after its event fires, and approve_request
succeeding. -/
inductive BrokerReachable : UnixSocketManager → Prop where
  | init (worker_id : String) (timeout : Nat) :
      BrokerReachable (initBroker worker_id timeout)
  | handle (m : UnixSocketManager) (request : PermissionRequest) :
      BrokerReachable m → BrokerReachable (handleRequestLine m request).1
  | complete (m : UnixSocketManager) (request_id : String) :
      BrokerReachable m → BrokerReachable (completeRequest m request_id).1
  | approveStep (m : UnixSocketManager) (request_id : String) (allow : Bool)
      (message : Option String) (m2 : UnixSocketManager) (st : ApproveStatus) :
      BrokerReachable m →
      approve_request m request_id allow message = .ok (m2, st) →
      BrokerReachable m2

/-- Worker lifecycle states (models.WorkerStatus). -/
inductive WorkerStatus where
  | active : WorkerStatus
  | completed : WorkerStatus
  | failed : WorkerStatus
deriving DecidableEq, BEq

/-- Predefined agent types (models.AgentType). -/
inductive AgentType where
  | generalPurpose : AgentType
  | explore : AgentType
  | statuslineSetup : AgentType
  | outputStyleSetup : AgentType

/-- The arguments a runner coroutine was created with
(run_claude_job(prompt, timeout, worker_id, session_id)). -/
structure RunnerSpec where
  prompt : String
  timeout : Nat
  worker_id : String
  session_id : Option String

/-- Completion record returned by a runner (models.ClaudeJobResult:
worker_id, returncode, stdout, stderr, output_file), with stdout carried as
the json.loads outcome of the captured standard output (none when
json.loads would raise). -/
structure ClaudeJobResult where
  worker_id : String
  returncode : Int
  stdout : Option JVal
  stderr : String
  output_file : String

/-- Whether the runner coroutine behind an asyncio task has finished. -/
inductive TaskOutcome where
  | running : TaskOutcome
  | done (result : ClaudeJobResult) : TaskOutcome

/-- An asyncio task handle for a runner: what it was launched to run and
whether it has finished. -/
structure TaskHandle where
  spec : RunnerSpec
  outcome : TaskOutcome

/-- Entry of the legacy active_tasks dict (models.ActiveTask: worker_id,
task, permission_socket). There is no timeout field: the reads
active.timeout in _flush_completed_tasks raise AttributeError. The
permission_socket field is an optional OS socket, None in every
construction the source can reach; it carries no verified content. -/
structure ActiveTask where
  worker_id : String
  task : TaskHandle
  permission_socket : Option Unit

/-- Completed worker record (models.CompleteTask: worker_id,
claude_session_id, conversation_history_file_path). There is no timeout
field: the read complete_task.timeout in resume_worker raises
AttributeError. -/
structure CompleteTask where
  worker_id : String
  claude_session_id : String
  conversation_history_file_path : String
deriving DecidableEq

/-- Failed worker record (models.FailedTask: worker_id, returncode,
conversation_history_file_path, error_hint). -/
structure FailedTask where
  worker_id : String
  returncode : Int
  conversation_history_file_path : Option String
  error_hint : String
deriving DecidableEq

/-- Unified worker registry entry (models.Worker: worker_id, status, task,
complete_task, socket_mgr, agent_type). There is no timeout field: the
keyword argument timeout= that create_async_worker passes to this
constructor raises TypeError. -/
structure Worker where
  worker_id : String
  status : WorkerStatus
  task : Option TaskHandle
  complete_task : Option CompleteTask
  socket_mgr : Option UnixSocketManager
  agent_type : Option AgentType

/-- Events pushed to the per-loop queue
(models.CompletionEvent, FailureEvent, PermissionEvent). In the frozen
source only PermissionEvent is ever produced (unix_socket_manager.py:327):
the completion and failure pushes in _flush_completed_tasks sit after the
AttributeError raise sites and never run. -/
inductive WorkerEvent where
  | completion (worker_id : String) (task : CompleteTask) : WorkerEvent
  | failure (worker_id : String) (task : FailedTask) : WorkerEvent
  | permission (worker_id : String) (permission : PermissionRequest) :
      WorkerEvent

/-- Snapshot returned by wait (models.WorkerState). -/
structure WorkerState where
  completed : List CompleteTask
  failed : List FailedTask
  pending_permissions : List PermissionRequest

/-- Errors raised by the server module. Each constructor embeds one raise
site: maxActiveWorkers is the ToolError "Max 10 active workers."
(server.py:53); typeErrorWorkerTimeout is the TypeError raised by the
Worker(..., timeout=..., ...) construction (server.py:57, models.Worker has
no timeout field); workerNotFoundInCompleteTasks is the ToolError
"Worker {worker_id} not found in complete tasks" (server.py:77);
attributeErrorCompleteTaskTimeout is the AttributeError raised by
complete_task.timeout (server.py:86, models.CompleteTask has no timeout
field); noActiveWorkers is the ToolError "No active workers to wait for"
(server.py:128); invalidSessionId carries the offending data.get result of
the ToolError "Invalid or missing session_id: {session_id}"
(server.py:474); jsonDecodeError is a json.loads raise (server.py:471);
attributeError is .get on a non-dict (server.py:472);
attributeErrorActiveTaskTimeout is the AttributeError raised by
active.timeout (server.py:458 and 484, models.ActiveTask has no timeout
field); keyError is a dict.pop on a missing key. -/
inductive ServerErr where
  | maxActiveWorkers : ServerErr
  | typeErrorWorkerTimeout : ServerErr
  | workerNotFoundInCompleteTasks (worker_id : String) : ServerErr
  | attributeErrorCompleteTaskTimeout : ServerErr
  | noActiveWorkers : ServerErr
  | invalidSessionId (got : Option JVal) : ServerErr
  | jsonDecodeError : ServerErr
  | attributeError : ServerErr
  | attributeErrorActiveTaskTimeout : ServerErr
  | keyError : ServerErr

/-- The module-level mutable state of server.py: the workers registry, the
legacy active_tasks and complete_tasks dicts, and the per-loop event
queue. -/
structure ServerState where
  workers : List (String × Worker)
  activeTasks : List (String × ActiveTask)
  completeTasks : List (String × CompleteTask)
  eventQueue : List WorkerEvent

/-- The command line assembled by run_claude_job (lines 303-311): the
resume flag with the session identifier when one is given, then the prompt
and the fixed flags. mcp_config_json is the environment-dependent MCP
config dump, opaque to the verified properties. -/
def claude_cmd (prompt : String) (session_id : Option String)
    (mcp_config_json : String) : List String :=
  ["claude"]
  ++ (match session_id with
      | some sid => ["--resume", sid]
      | none => [])
  ++ ["-p", prompt, "--output-format", "json",
      "--mcp-config", mcp_config_json,
      "--permission-prompt-tool",
      "mcp__permission_proxy__request_permission"]

/-- The command line of the runner an asyncio task was created to run. -/
def RunnerSpec.command (rs : RunnerSpec) (mcp_config_json : String) :
    List String :=
  claude_cmd rs.prompt rs.session_id mcp_config_json

/-- server.create_async_worker (lines 47-65): reject with the
"Max 10 active workers." ToolError when the count of active tasks is
already 10 (lines 51-53). Below the cap, the source mints the uuid
(line 54) and creates the asyncio task for run_claude_job (line 55), but
the Worker construction at line 57 passes timeout= to a dataclass without
that field and raises TypeError before either dict is written and before
the identity is returned; lines 63-65 never run. The launched runner task
is left unreferenced by any module dict, so the module state is
unchanged. -/
def create_async_worker (prompt : String) (timeout : Nat) (freshId : String)
    (s : ServerState) : ServerState × Except ServerErr String :=
  if 10 ≤ s.activeTasks.length then
    (s, .error .maxActiveWorkers)
  else
    (s, .error .typeErrorWorkerTimeout)

/-- server._generate_error_hint (lines 245-261): case-insensitive keyword
scan of stderr in source order, then the first 150 characters with newlines
replaced by spaces, then the exit-code fallback for empty stderr. -/
def generate_error_hint (stderr : String) (returncode : Int) : String :=
  let stderr_lower := pyLower stderr
  if pyIn "timeout" stderr_lower then
    "Timed out. Increase timeout parameter."
  else if pyIn "permission" stderr_lower then
    "Permission denied. Check pending_permissions and approve."
  else if pyIn "command not found" stderr_lower then
    "Tool not found. Check MCP server config."
  else if pyIn "connection" stderr_lower || pyIn "failed to connect" stderr_lower then
    "Connection failed. Check MCP server is running."
  else if stderr ≠ "" then
    pyStripNl (stderr.take 150)
  else
    "Exit code " ++ toString returncode

/-- Python dict.get on a json.loads value: key lookup on an object, an
AttributeError raise on any other value (lists, strings, numbers, booleans
and None have no .get). -/
def pyGetSessionId (data : JVal) : Except ServerErr (Option JVal) :=
  match data with
  | .jobj fields => .ok (dictLookup fields "session_id")
  | _ => .error .attributeError

/-- Loop body of server._flush_completed_tasks (lines 443-499). In the
frozen source every iteration raises, so only the first finished record is
ever examined and the rest of the list is never reached. Failure branch
(returncode nonzero): active_tasks.pop succeeds at line 446, then the
FailedTask construction raises AttributeError while evaluating
timeout=active.timeout (line 458, models.ActiveTask has no timeout field),
so no FailedTask is built, no failure event is pushed and the registry
entry is not transitioned; the only surviving effect is the pop. Success
branch (returncode zero): json.loads (line 471), .get (line 472) and the
string check on session_id (lines 473-474) raise before the pop at
line 477 when stdout is unusable; with a valid string session_id the pop at
line 477 succeeds and the CompleteTask construction raises AttributeError
at timeout=active.timeout (line 484), so no CompleteTask is built, no
completion event is pushed, complete_tasks is not written and the registry
entry keeps its state; again only the pop survives. -/
def flushLoop : List ClaudeJobResult → ServerState → List CompleteTask →
    List FailedTask →
    ServerState × Except ServerErr (List CompleteTask × List FailedTask)
  | [], s, completed, failed => (s, .ok (completed, failed))
  | r :: _, s, _, _ =>
    if r.returncode ≠ 0 then
      match dictLookup s.activeTasks r.worker_id with
      | none => (s, .error .keyError)
      | some _ =>
        ({ s with activeTasks := dictRemove s.activeTasks r.worker_id },
         .error .attributeErrorActiveTaskTimeout)
    else
      match r.stdout with
      | none => (s, .error .jsonDecodeError)
      | some data =>
        match pyGetSessionId data with
        | .error e => (s, .error e)
        | .ok sessionIdVal =>
          match sessionIdVal with
          | some (.jstr _) =>
            match dictLookup s.activeTasks r.worker_id with
            | none => (s, .error .keyError)
            | some _ =>
              ({ s with activeTasks := dictRemove s.activeTasks r.worker_id },
               .error .attributeErrorActiveTaskTimeout)
          | other => (s, .error (.invalidSessionId other))

/-- server._flush_completed_tasks with timeout 0.0 (the only timeout the
verified call sites pass): return empty lists when there are no active
tasks or none of them has finished, otherwise process the finished
completion records (the loop aborts on its first record, see flushLoop).
asyncio.wait returns the finished tasks as a set with unspecified order;
the embedding fixes the active_tasks dict order. -/
def flush_completed_tasks (s : ServerState) :
    ServerState × Except ServerErr (List CompleteTask × List FailedTask) :=
  if s.activeTasks.isEmpty then (s, .ok ([], []))
  else
    let results : List ClaudeJobResult :=
      s.activeTasks.filterMap (fun p =>
        match p.2.task.outcome with
        | .done r => some r
        | .running => none)
    if results.isEmpty then (s, .ok ([], []))
    else flushLoop results s [] []

/-- server._get_pending_permissions with no worker filter (lines 368-389):
concatenate the pending requests of every registered worker that holds a
live socket manager. -/
def get_pending_permissions (s : ServerState) : List PermissionRequest :=
  s.workers.flatMap (fun p =>
    match p.2.socket_mgr with
    | some mgr => get_pending_requests mgr
    | none => [])

/-- server.resume_worker (lines 68-99): flush once when the worker is still
in active_tasks (a raise there propagates), fail with the single
"not found in complete tasks" ToolError when the worker is not in
complete_tasks (line 77). Otherwise the pop at line 80 removes the
CompleteTask, and then evaluating complete_task.timeout among the
run_claude_job arguments at line 86 raises AttributeError
(models.CompleteTask has no timeout field): the new task is never created
and lines 92-99 never run, so the worker is not re-activated and the
popped CompleteTask is lost. -/
def resume_worker (worker_id : String) (message : String) (s : ServerState) :
    ServerState × Except ServerErr Unit :=
  let step1 : ServerState × Except ServerErr Unit :=
    if (dictLookup s.activeTasks worker_id).isSome then
      let fr := flush_completed_tasks s
      match fr.2 with
      | .error e => (fr.1, .error e)
      | .ok _ => (fr.1, .ok ())
    else (s, .ok ())
  match step1.2 with
  | .error e => (step1.1, .error e)
  | .ok _ =>
    let s1 := step1.1
    match dictLookup s1.completeTasks worker_id with
    | none => (s1, .error (.workerNotFoundInCompleteTasks worker_id))
    | some _ =>
      ({ s1 with completeTasks := dictRemove s1.completeTasks worker_id },
       .error .attributeErrorCompleteTaskTimeout)

/-- server.wait with no worker filter (lines 102-190) on a quiescent
system: no new completion, failure or permission event is produced by the
environment while the call blocks, so the call reduces to its entry
checks, then at most one already-queued event, then the expiry of the
overall timeout. In source order: raise NoActiveWorkers when both
active_tasks and complete_tasks are empty; flush (a raise there
propagates) and return the snapshot when it finds completions, failures or
pending permissions; otherwise consume one queued event and return the
snapshot it induces (a completion or failure event becomes a singleton
list; a permission event triggers one more flush and is prepended to the
pending list); with an empty queue the quiescent loop only re-runs the
same empty checks until the timeout expires with the empty snapshot. -/
def wait_quiescent (s : ServerState) :
    ServerState × Except ServerErr WorkerState :=
  if s.activeTasks.isEmpty && s.completeTasks.isEmpty then
    (s, .error .noActiveWorkers)
  else
    let fr := flush_completed_tasks s
    match fr.2 with
    | .error e => (fr.1, .error e)
    | .ok (completed, failed) =>
      let s1 := fr.1
      let pending_perms := get_pending_permissions s1
      if !completed.isEmpty || !failed.isEmpty || !pending_perms.isEmpty then
        (s1, .ok ⟨completed, failed, pending_perms⟩)
      else
        match s1.eventQueue with
        | [] => (s1, .ok ⟨[], [], []⟩)
        | event :: restQueue =>
          let s2 : ServerState := { s1 with eventQueue := restQueue }
          match event with
          | .completion _ task =>
            (s2, .ok ⟨[task], [], get_pending_permissions s2⟩)
          | .failure _ task =>
            (s2, .ok ⟨[], [task], get_pending_permissions s2⟩)
          | .permission _ perm =>
            let fr2 := flush_completed_tasks s2
            match fr2.2 with
            | .error e => (fr2.1, .error e)
            | .ok (completed2, failed2) =>
              (fr2.1, .ok ⟨completed2, failed2,
                perm :: get_pending_permissions fr2.1⟩)

/-- A completion record as run_claude_job builds it for a given worker:
the worker identity it was launched with and the per-worker output path
logs/worker-{worker_id}.json. -/
def mkResult (worker_id : String) (returncode : Int) (stdout : Option JVal)
    (stderr : String) : ClaudeJobResult :=
  ⟨worker_id, returncode, stdout, stderr,
   "logs/worker-" ++ worker_id ++ ".json"⟩

/-- Number of registry entries in state Active. -/
def activeWorkerCount (s : ServerState) : Nat :=
  (s.workers.filter (fun p => p.2.status == WorkerStatus.active)).length

/-- The empty module state at import time. -/
def initState : ServerState := ⟨[], [], [], []⟩

theorem dictLookup_dictUpdate_self {α : Type} (l : List (String × α))
    (k : String) (f : α → α) :
    dictLookup (dictUpdate l k f) k = (dictLookup l k).map f := by
  induction l with
  | nil => simp [dictUpdate, dictLookup]
  | cons p t ih =>
    by_cases hp : p.1 = k
    · simp [dictUpdate, dictLookup, hp]
    · simp [dictUpdate, dictLookup, hp, ih]

theorem dictLookup_mem {α : Type} (l : List (String × α)) (k : String)
    (v : α) (h : dictLookup l k = some v) : (k, v) ∈ l := by
  induction l with
  | nil => simp [dictLookup] at h
  | cons p t ih =>
    by_cases hp : p.1 = k
    · simp [dictLookup, hp] at h
      subst hp
      subst h
      exact List.mem_cons_self _ _
    · simp [dictLookup, hp] at h
      exact List.mem_cons_of_mem _ (ih h)

theorem mem_dictInsert {α : Type} (l : List (String × α)) (k : String)
    (v : α) (p : String × α) (h : p ∈ dictInsert l k v) :
    p ∈ l ∨ p = (k, v) := by
  induction l with
  | nil => simp [dictInsert] at h; right; exact h
  | cons q t ih =>
    by_cases hq : q.1 = k
    · simp [dictInsert, hq] at h
      rcases h with h | h
      · right; simp [h]
      · left; exact List.mem_cons_of_mem _ h
    · simp [dictInsert, hq] at h
      rcases h with h | h
      · left; simp [h]
      · rcases ih h with h2 | h2
        · left; exact List.mem_cons_of_mem _ h2
        · right; exact h2

theorem mem_dictRemove {α : Type} (l : List (String × α)) (k : String)
    (p : String × α) (h : p ∈ dictRemove l k) : p ∈ l :=
  List.mem_of_mem_filter h

theorem mem_dictUpdate {α : Type} (l : List (String × α)) (k : String)
    (f : α → α) (p : String × α) (h : p ∈ dictUpdate l k f) :
    p ∈ l ∨ ∃ q, q ∈ l ∧ p = (q.1, f q.2) := by
  induction l with
  | nil => simp [dictUpdate] at h
  | cons q t ih =>
    by_cases hq : q.1 = k
    · simp [dictUpdate, hq] at h
      rcases h with h | h
      · right; exact ⟨q, List.mem_cons_self _ _, by rw [h, hq]⟩
      · left; exact List.mem_cons_of_mem _ h
    · simp [dictUpdate, hq] at h
      rcases h with h | h
      · left; simp [h]
      · rcases ih h with h2 | ⟨q2, hq2, hp2⟩
        · left; exact List.mem_cons_of_mem _ h2
        · right; exact ⟨q2, List.mem_cons_of_mem _ hq2, hp2⟩

theorem flushLoop_cons_not_ok (r : ClaudeJobResult)
    (rest : List ClaudeJobResult) (s : ServerState) (c : List CompleteTask)
    (f : List FailedTask) (s2 : ServerState)
    (out : List CompleteTask × List FailedTask) :
    flushLoop (r :: rest) s c f ≠ (s2, .ok out) := by
  intro h
  simp only [flushLoop] at h
  split at h
  · split at h <;> simp [Prod.ext_iff] at h
  · split at h
    · simp [Prod.ext_iff] at h
    · split at h
      · simp [Prod.ext_iff] at h
      · split at h
        · split at h <;> simp [Prod.ext_iff] at h
        · simp [Prod.ext_iff] at h

theorem flushLoop_ok_nil : ∀ (l : List ClaudeJobResult) (s : ServerState)
    (s2 : ServerState) (out : List CompleteTask × List FailedTask),
    flushLoop l s [] [] = (s2, .ok out) → s2 = s ∧ out = ([], []) := by
  intro l s s2 out h
  cases l with
  | nil =>
    simp [flushLoop, Prod.ext_iff] at h
    exact ⟨h.1.symm, by simp [← h.2.1, ← h.2.2]⟩
  | cons r rest => exact absurd h (flushLoop_cons_not_ok r rest s [] [] s2 out)

theorem flushLoop_error_kind : ∀ (l : List ClaudeJobResult)
    (s : ServerState) (c : List CompleteTask) (f : List FailedTask)
    (s2 : ServerState) (e : ServerErr),
    flushLoop l s c f = (s2, .error e) → e ≠ ServerErr.noActiveWorkers := by
  intro l s c f s2 e h
  cases l with
  | nil => simp [flushLoop, Prod.ext_iff] at h
  | cons r rest =>
    simp only [flushLoop] at h
    split at h
    · split at h <;> simp [Prod.ext_iff] at h <;> simp [← h.2]
    · split at h
      · simp [Prod.ext_iff] at h
        simp [← h.2]
      · split at h
        · rename_i e2 he2
          simp [Prod.ext_iff] at h
          simp [pyGetSessionId] at he2
          split at he2
          · simp at he2
          · simp at he2
            simp [← h.2, ← he2]
        · split at h
          · split at h <;> simp [Prod.ext_iff] at h <;> simp [← h.2]
          · simp [Prod.ext_iff] at h
            simp [← h.2]

theorem flushLoop_state (l : List ClaudeJobResult) (s : ServerState)
    (c : List CompleteTask) (f : List FailedTask) :
    (flushLoop l s c f).1 = s ∨
    ∃ wid, (flushLoop l s c f).1 =
      { s with activeTasks := dictRemove s.activeTasks wid } := by
  cases l with
  | nil => left; rfl
  | cons r rest =>
    simp only [flushLoop]
    split
    · split
      · left; rfl
      · right; exact ⟨r.worker_id, rfl⟩
    · split
      · left; rfl
      · split
        · left; rfl
        · split
          · split
            · left; rfl
            · right; exact ⟨r.worker_id, rfl⟩
          · left; rfl

theorem flush_result_state (s : ServerState) :
    (flush_completed_tasks s).1 = s ∨
    ∃ wid, (flush_completed_tasks s).1 =
      { s with activeTasks := dictRemove s.activeTasks wid } := by
  simp only [flush_completed_tasks]
  split
  · left; rfl
  · split
    · left; rfl
    · exact flushLoop_state _ s [] []

theorem flush_workers_eq (s : ServerState) :
    (flush_completed_tasks s).1.workers = s.workers := by
  rcases flush_result_state s with h | ⟨wid, h⟩ <;> rw [h]

theorem flush_complete_eq (s : ServerState) :
    (flush_completed_tasks s).1.completeTasks = s.completeTasks := by
  rcases flush_result_state s with h | ⟨wid, h⟩ <;> rw [h]

theorem flush_queue_eq (s : ServerState) :
    (flush_completed_tasks s).1.eventQueue = s.eventQueue := by
  rcases flush_result_state s with h | ⟨wid, h⟩ <;> rw [h]

theorem flush_active_le (s : ServerState) :
    (flush_completed_tasks s).1.activeTasks.length ≤
      s.activeTasks.length := by
  rcases flush_result_state s with h | ⟨wid, h⟩ <;> rw [h]
  exact List.length_filter_le _ _

theorem flush_noop (s s2 : ServerState)
    (h : flush_completed_tasks s = (s2, .ok ([], []))) : s2 = s := by
  simp only [flush_completed_tasks] at h
  split at h
  · simp [Prod.ext_iff] at h
    exact h.symm
  · split at h
    · simp [Prod.ext_iff] at h
      exact h.symm
    · exact (flushLoop_ok_nil _ _ _ _ h).1

theorem flush_error_kind (s s2 : ServerState) (e : ServerErr)
    (h : flush_completed_tasks s = (s2, .error e)) :
    e ≠ ServerErr.noActiveWorkers := by
  simp only [flush_completed_tasks] at h
  split at h
  · simp [Prod.ext_iff] at h
  · split at h
    · simp [Prod.ext_iff] at h
    · exact flushLoop_error_kind _ _ _ _ _ _ h

theorem flush_all_running (s : ServerState)
    (h : ∀ p ∈ s.activeTasks, p.2.task.outcome = TaskOutcome.running) :
    flush_completed_tasks s = (s, .ok ([], [])) := by
  simp only [flush_completed_tasks]
  split
  · rfl
  · have hres : (s.activeTasks.filterMap (fun p =>
        match p.2.task.outcome with
        | .done r => some r
        | .running => none) : List ClaudeJobResult) = [] := by
      rw [List.filterMap_eq_nil_iff]
      intro p hp
      rw [h p hp]
    simp [hres]

theorem resume_result_state (worker_id message : String)
    (s s1 : ServerState) (r : Except ServerErr Unit)
    (hw : resume_worker worker_id message s = (s1, r)) :
    s1.workers = s.workers ∧
    s1.activeTasks.length ≤ s.activeTasks.length := by
  by_cases ha : (dictLookup s.activeTasks worker_id).isSome = true
  · rcases hfr : flush_completed_tasks s with ⟨s2, r2⟩
    have hW : s2.workers = s.workers := by
      have h2 := flush_workers_eq s
      rw [hfr] at h2
      exact h2
    have hA : s2.activeTasks.length ≤ s.activeTasks.length := by
      have h2 := flush_active_le s
      rw [hfr] at h2
      exact h2
    simp only [resume_worker, if_pos ha, hfr] at hw
    cases r2 with
    | error e =>
      simp only [Prod.mk.injEq] at hw
      rw [← hw.1]
      exact ⟨hW, hA⟩
    | ok u =>
      simp only [] at hw
      split at hw
      · simp only [Prod.mk.injEq] at hw
        rw [← hw.1]
        exact ⟨hW, hA⟩
      · simp only [Prod.mk.injEq] at hw
        rw [← hw.1]
        exact ⟨hW, hA⟩
  · simp only [resume_worker, if_neg ha] at hw
    split at hw
    · simp only [Prod.mk.injEq] at hw
      rw [← hw.1]
      exact ⟨rfl, le_rfl⟩
    · simp only [Prod.mk.injEq] at hw
      rw [← hw.1]
      exact ⟨rfl, le_rfl⟩

theorem resume_state_facts (worker_id message : String) (s : ServerState) :
    (resume_worker worker_id message s).1.workers = s.workers ∧
    (resume_worker worker_id message s).1.activeTasks.length ≤
      s.activeTasks.length := by
  rcases hval : resume_worker worker_id message s with ⟨s1, r⟩
  exact resume_result_state worker_id message s s1 r hval

theorem wait_result_state (s s1 : ServerState)
    (r : Except ServerErr WorkerState)
    (hw : wait_quiescent s = (s1, r)) :
    s1.workers = s.workers ∧
    s1.activeTasks.length ≤ s.activeTasks.length := by
  by_cases hcond : (s.activeTasks.isEmpty && s.completeTasks.isEmpty) = true
  · simp only [wait_quiescent, if_pos hcond, Prod.mk.injEq] at hw
    rw [← hw.1]
    exact ⟨rfl, le_rfl⟩
  · rcases hfr : flush_completed_tasks s with ⟨s2, r2⟩
    have hW : s2.workers = s.workers := by
      have h2 := flush_workers_eq s
      rw [hfr] at h2
      exact h2
    have hA : s2.activeTasks.length ≤ s.activeTasks.length := by
      have h2 := flush_active_le s
      rw [hfr] at h2
      exact h2
    simp only [wait_quiescent, if_neg hcond, hfr] at hw
    cases r2 with
    | error e =>
      simp only [Prod.mk.injEq] at hw
      rw [← hw.1]
      exact ⟨hW, hA⟩
    | ok cf =>
      rcases cf with ⟨c, f⟩
      simp only [] at hw
      split at hw
      · simp only [Prod.mk.injEq] at hw
        rw [← hw.1]
        exact ⟨hW, hA⟩
      · split at hw
        · simp only [Prod.mk.injEq] at hw
          rw [← hw.1]
          exact ⟨hW, hA⟩
        · rename_i ev rest heq
          cases ev with
          | completion wid task =>
            simp only [Prod.mk.injEq] at hw
            rw [← hw.1]
            exact ⟨hW, hA⟩
          | failure wid task =>
            simp only [Prod.mk.injEq] at hw
            rw [← hw.1]
            exact ⟨hW, hA⟩
          | permission wid perm =>
            rcases hfr2 : flush_completed_tasks
                { s2 with eventQueue := rest } with ⟨s3, r3⟩
            have hW2 : s3.workers = s2.workers := by
              have h2 := flush_workers_eq { s2 with eventQueue := rest }
              rw [hfr2] at h2
              exact h2
            have hA2 : s3.activeTasks.length ≤ s2.activeTasks.length := by
              have h2 := flush_active_le { s2 with eventQueue := rest }
              rw [hfr2] at h2
              exact h2
            simp only [hfr2] at hw
            cases r3 with
            | error e3 =>
              simp only [Prod.mk.injEq] at hw
              rw [← hw.1]
              exact ⟨hW2.trans hW, le_trans hA2 hA⟩
            | ok cf3 =>
              rcases cf3 with ⟨c3, f3⟩
              simp only [Prod.mk.injEq] at hw
              rw [← hw.1]
              exact ⟨hW2.trans hW, le_trans hA2 hA⟩

theorem wait_state_facts (s : ServerState) :
    (wait_quiescent s).1.workers = s.workers ∧
    (wait_quiescent s).1.activeTasks.length ≤ s.activeTasks.length := by
  rcases hval : wait_quiescent s with ⟨s1, r⟩
  exact wait_result_state s s1 r hval

/-- C1: evaluation at the failing input. A spawn on the empty registry is
below the cap, yet create_async_worker raises TypeError at the
Worker(..., timeout=timeout, ...) construction (server.py:57,
models.Worker has no timeout field): no worker is registered in either
dict and no identity is returned, contradicting the claimed (and
specified, and unit-tested) registration of an Active worker and return of
the fresh identity. -/
theorem C1_spawn_raises_type_error :
    create_async_worker "p" 300 "w" initState =
      (initState, .error .typeErrorWorkerTimeout) ∧
    (create_async_worker "p" 300 "w" initState).1.workers = [] ∧
    (create_async_worker "p" 300 "w" initState).1.activeTasks = [] :=
  ⟨rfl, rfl, rfl⟩

/-- C2: the capacity gate at server.py:51-53 fires before anything else, so
a spawn at a count of 10 or more active tasks fails with the
"Max 10 active workers." ToolError; and every operation preserves the
bound, because in the frozen source no operation can ever add an Active
worker: a below-cap spawn raises TypeError before registering (see C1), a
resume raises AttributeError before re-activating (see C5), and the flush
inside wait only removes active entries and never transitions a registry
status. Spawn leaves the state entirely unchanged, resume and wait leave
every registry status unchanged and never grow active_tasks. -/
theorem C2_cap_invariant (s : ServerState)
    (prompt message worker_id freshId : String) (timeout : Nat) :
    (10 ≤ s.activeTasks.length →
      create_async_worker prompt timeout freshId s =
        (s, .error .maxActiveWorkers)) ∧
    (create_async_worker prompt timeout freshId s).1 = s ∧
    activeWorkerCount (resume_worker worker_id message s).1 =
      activeWorkerCount s ∧
    activeWorkerCount (wait_quiescent s).1 = activeWorkerCount s ∧
    (resume_worker worker_id message s).1.activeTasks.length ≤
      s.activeTasks.length ∧
    (wait_quiescent s).1.activeTasks.length ≤ s.activeTasks.length := by
  refine ⟨?_, ?_, ?_, ?_, ?_, ?_⟩
  · intro h
    simp [create_async_worker, h]
  · simp only [create_async_worker]
    split <;> rfl
  · unfold activeWorkerCount
    rw [(resume_state_facts worker_id message s).1]
  · unfold activeWorkerCount
    rw [(wait_state_facts s).1]
  · exact (resume_state_facts worker_id message s).2
  · exact (wait_state_facts s).2

/-- A still-running runner task handle used by concrete states below. -/
def runningTask (worker_id : String) : TaskHandle :=
  ⟨⟨"p", 300, worker_id, none⟩, .running⟩

/-- A registry with ten Active workers (as the unit tests build it, by
writing the dicts directly). -/
def c2state10 : ServerState :=
  ⟨[("0", ⟨"0", .active, some (runningTask "0"), none, none, none⟩),
    ("1", ⟨"1", .active, some (runningTask "1"), none, none, none⟩),
    ("2", ⟨"2", .active, some (runningTask "2"), none, none, none⟩),
    ("3", ⟨"3", .active, some (runningTask "3"), none, none, none⟩),
    ("4", ⟨"4", .active, some (runningTask "4"), none, none, none⟩),
    ("5", ⟨"5", .active, some (runningTask "5"), none, none, none⟩),
    ("6", ⟨"6", .active, some (runningTask "6"), none, none, none⟩),
    ("7", ⟨"7", .active, some (runningTask "7"), none, none, none⟩),
    ("8", ⟨"8", .active, some (runningTask "8"), none, none, none⟩),
    ("9", ⟨"9", .active, some (runningTask "9"), none, none, none⟩)],
   [("0", ⟨"0", runningTask "0", none⟩),
    ("1", ⟨"1", runningTask "1", none⟩),
    ("2", ⟨"2", runningTask "2", none⟩),
    ("3", ⟨"3", runningTask "3", none⟩),
    ("4", ⟨"4", runningTask "4", none⟩),
    ("5", ⟨"5", runningTask "5", none⟩),
    ("6", ⟨"6", runningTask "6", none⟩),
    ("7", ⟨"7", runningTask "7", none⟩),
    ("8", ⟨"8", runningTask "8", none⟩),
    ("9", ⟨"9", runningTask "9", none⟩)],
   [], []⟩

/-- Witness for C2 at the ten-Active-workers registry: the eleventh spawn
attempt is rejected with the capacity error, and a wait call preserves the
Active count. -/
theorem C2_witness :
    create_async_worker "p" 300 "z" c2state10 =
      (c2state10, .error .maxActiveWorkers) ∧
    activeWorkerCount (wait_quiescent c2state10).1 =
      activeWorkerCount c2state10 :=
  ⟨(C2_cap_invariant c2state10 "p" "m" "0" "z" 300).1 (by decide),
   (C2_cap_invariant c2state10 "p" "m" "0" "z" 300).2.2.2.1⟩

/-- C9 (amended): the error hint is selected by a case-insensitive keyword
scan of stderr in the fixed priority order timeout, permission,
command not found, connection or failed to connect, with the actual
strings the code returns ("Timed out. Increase timeout parameter.",
"Permission denied. Check pending_permissions and approve.",
"Tool not found. Check MCP server config.",
"Connection failed. Check MCP server is running."); with no keyword and
nonempty stderr the hint is the first 150 characters of stderr with
newlines replaced by spaces; empty stderr yields "Exit code <n>". -/
theorem C9_error_hint_cases (stderr : String) (returncode : Int) :
    (pyIn "timeout" (pyLower stderr) = true →
      generate_error_hint stderr returncode =
        "Timed out. Increase timeout parameter.") ∧
    (pyIn "timeout" (pyLower stderr) = false →
      pyIn "permission" (pyLower stderr) = true →
      generate_error_hint stderr returncode =
        "Permission denied. Check pending_permissions and approve.") ∧
    (pyIn "timeout" (pyLower stderr) = false →
      pyIn "permission" (pyLower stderr) = false →
      pyIn "command not found" (pyLower stderr) = true →
      generate_error_hint stderr returncode =
        "Tool not found. Check MCP server config.") ∧
    (pyIn "timeout" (pyLower stderr) = false →
      pyIn "permission" (pyLower stderr) = false →
      pyIn "command not found" (pyLower stderr) = false →
      (pyIn "connection" (pyLower stderr) = true ∨
        pyIn "failed to connect" (pyLower stderr) = true) →
      generate_error_hint stderr returncode =
        "Connection failed. Check MCP server is running.") ∧
    (pyIn "timeout" (pyLower stderr) = false →
      pyIn "permission" (pyLower stderr) = false →
      pyIn "command not found" (pyLower stderr) = false →
      pyIn "connection" (pyLower stderr) = false →
      pyIn "failed to connect" (pyLower stderr) = false →
      stderr ≠ "" →
      generate_error_hint stderr returncode =
        pyStripNl (stderr.take 150)) ∧
    (stderr = "" →
      generate_error_hint stderr returncode =
        "Exit code " ++ toString returncode) := by
  refine ⟨?_, ?_, ?_, ?_, ?_, ?_⟩
  · intro h1
    simp [generate_error_hint, h1]
  · intro h1 h2
    simp [generate_error_hint, h1, h2]
  · intro h1 h2 h3
    simp [generate_error_hint, h1, h2, h3]
  · intro h1 h2 h3 h4
    rcases h4 with h4 | h4 <;> simp [generate_error_hint, h1, h2, h3, h4]
  · intro h1 h2 h3 h4 h5 h6
    simp [generate_error_hint, h1, h2, h3, h4, h5, h6]
  · intro h1
    subst h1
    rfl

/-- Witness for C9: the timeout keyword case and the empty-stderr case at
concrete inputs. -/
theorem C9_witness :
    generate_error_hint "timeout" 1 =
      "Timed out. Increase timeout parameter." ∧
    generate_error_hint "" 7 = "Exit code 7" := by
  constructor
  · exact (C9_error_hint_cases "timeout" 1).1 (by decide)
  · exact (C9_error_hint_cases "" 7).2.2.2.2.2 rfl

/-- Counterexample for C9: the code does not return the exact strings the
claim lists; the timeout hint carries a trailing sentence and the
command-not-found hint says "Tool not found.", not "Executable missing.". -/
theorem C9_counterexample :
    generate_error_hint "timeout" 1 ≠ "Timed out." ∧
    generate_error_hint "command not found" 1 ≠ "Executable missing." := by
  constructor <;> decide

/-- Completion record of a runner that exits 0 with stdout parsing to the
empty JSON object, which has no session_id key. -/
def c3result : ClaudeJobResult := mkResult "w" 0 (some (.jobj [])) ""

/-- The finished task handle of the C3 worker. -/
def c3task : TaskHandle := ⟨⟨"p", 300, "w", none⟩, .done c3result⟩

/-- Registry holding the single C3 worker, still Active, with its runner
finished. -/
def c3state : ServerState :=
  ⟨[("w", ⟨"w", .active, some c3task, none, none, none⟩)],
   [("w", ⟨"w", c3task, none⟩)], [], []⟩

/-- C3: evaluation at the failing input. A runner that exits 0 with stdout
lacking a string session_id makes _flush_completed_tasks raise the
"Invalid or missing session_id" ToolError (server.py:474) before the pop
at line 477, so the raise propagates out of wait instead of surfacing as a
FailedTask; the worker is left in active_tasks and its registry entry
stays Active, contradicting the claimed (and specified) transition to
Failed. -/
theorem C3_invalid_session_raises :
    flush_completed_tasks c3state = (c3state, .error (.invalidSessionId none)) ∧
    wait_quiescent c3state = (c3state, .error (.invalidSessionId none)) ∧
    dictLookup c3state.activeTasks "w" = some ⟨"w", c3task, none⟩ ∧
    (dictLookup c3state.workers "w").map Worker.status = some .active :=
  ⟨rfl, rfl, rfl, rfl⟩

/-- C4 (amended): resume_worker has a single failure path for a worker that
is not in complete_tasks. Whether the identity is entirely unknown or
belongs to a worker in a non-Completed state (Failed, or Active with its
runner still running), the call fails with the one ToolError
"Worker {id} not found in complete tasks" (server.py:77); no distinct
WrongState error exists. Stated for states whose active runners are all
still running, so that the flush step inside resume is a no-op. -/
theorem C4_resume_not_completed_single_error (s : ServerState)
    (worker_id message : String)
    (hrun : ∀ p ∈ s.activeTasks, p.2.task.outcome = TaskOutcome.running)
    (hnc : dictLookup s.completeTasks worker_id = none) :
    resume_worker worker_id message s =
      (s, .error (.workerNotFoundInCompleteTasks worker_id)) := by
  simp only [resume_worker]
  by_cases ha : (dictLookup s.activeTasks worker_id).isSome
  · simp [ha, flush_all_running s hrun, hnc]
  · simp [ha, hnc]

/-- Witness for C4 on the empty state (unknown worker). -/
theorem C4_witness :
    resume_worker "x" "m" initState =
      (initState, .error (.workerNotFoundInCompleteTasks "x")) :=
  C4_resume_not_completed_single_error initState "x" "m" (by simp [initState])
    rfl

/-- Registry holding one worker in state Failed (Failed workers are in
neither active_tasks nor complete_tasks). -/
def c4failedState : ServerState :=
  ⟨[("w", ⟨"w", .failed, none, none, none, none⟩)], [], [], []⟩

/-- Counterexample for C4: resuming the existing worker w in state Failed
produces exactly the same error value as resuming the unknown identity w
on the empty registry, namely the not-found ToolError
"Worker w not found in complete tasks": the code has no distinct
WrongState error for a known worker in the wrong state. -/
theorem C4_counterexample :
    resume_worker "w" "m" c4failedState =
      (c4failedState, .error (.workerNotFoundInCompleteTasks "w")) ∧
    resume_worker "w" "m" initState =
      (initState, .error (.workerNotFoundInCompleteTasks "w")) :=
  ⟨rfl, rfl⟩

/-- The completed worker of the C5 failing input. -/
def c5ct : CompleteTask := ⟨"w", "s1", "logs/worker-w.json"⟩

/-- Registry holding the single completed C5 worker. -/
def c5state : ServerState :=
  ⟨[("w", ⟨"w", .completed, none, some c5ct, none, none⟩)], [],
   [("w", c5ct)], []⟩

/-- C5: evaluation at the failing input. Resuming a worker in state
Completed pops its CompleteTask (server.py:80) and then raises
AttributeError while evaluating complete_task.timeout among the
run_claude_job arguments (server.py:86, models.CompleteTask has no timeout
field): no new runner is created, the worker is never transitioned back to
Active, no active_tasks entry appears, and the popped completion record is
lost, contradicting the claimed (and specified, and unit-tested)
relaunch with the resume flag. -/
theorem C5_resume_raises_attribute_error :
    resume_worker "w" "next" c5state =
      (⟨[("w", ⟨"w", .completed, none, some c5ct, none, none⟩)], [], [], []⟩,
       .error .attributeErrorCompleteTaskTimeout) ∧
    dictLookup (resume_worker "w" "next" c5state).1.activeTasks "w" = none ∧
    (dictLookup (resume_worker "w" "next" c5state).1.workers "w").map
      Worker.status = some .completed ∧
    dictLookup (resume_worker "w" "next" c5state).1.completeTasks "w" =
      none :=
  ⟨rfl, rfl, rfl, rfl⟩

/-- C6 (amended): wait raises the "No active workers to wait for" ToolError
exactly when both active_tasks and complete_tasks are empty at entry; in
particular a registry that still holds a Completed worker (and no Active
one) does not raise, and a registry holding only Failed workers does
raise, because Failed workers live in neither dict. -/
theorem C6_wait_error_iff_both_empty (s : ServerState) :
    (wait_quiescent s).2 = .error ServerErr.noActiveWorkers ↔
      (s.activeTasks = [] ∧ s.completeTasks = []) := by
  constructor
  · intro h
    by_cases hcond : (s.activeTasks.isEmpty && s.completeTasks.isEmpty) = true
    · rw [Bool.and_eq_true] at hcond
      exact ⟨List.isEmpty_iff.mp hcond.1, List.isEmpty_iff.mp hcond.2⟩
    · exfalso
      rcases hfr : flush_completed_tasks s with ⟨s2, r⟩
      simp only [wait_quiescent, if_neg hcond, hfr] at h
      cases r with
      | error e =>
        simp at h
        exact flush_error_kind s s2 e hfr h
      | ok cf =>
        rcases cf with ⟨c, f⟩
        simp only [] at h
        split at h
        · simp at h
        · split at h
          · simp at h
          · rename_i ev rest heq
            cases ev with
            | completion wid task => simp at h
            | failure wid task => simp at h
            | permission wid perm =>
              rcases hfr2 : flush_completed_tasks
                  { s2 with eventQueue := rest } with ⟨s3, r3⟩
              simp only [hfr2] at h
              cases r3 with
              | error e3 =>
                simp at h
                exact flush_error_kind _ s3 e3 hfr2 h
              | ok cf3 =>
                rcases cf3 with ⟨c3, f3⟩
                simp at h
  · rintro ⟨h1, h2⟩
    simp [wait_quiescent, h1, h2]

/-- The completed worker of the C6 counterexample. -/
def c6ct : CompleteTask := ⟨"w", "s1", "logs/worker-w.json"⟩

/-- Registry with no Active worker but one Completed worker. -/
def c6state : ServerState :=
  ⟨[("w", ⟨"w", .completed, none, some c6ct, none, none⟩)], [],
   [("w", c6ct)], []⟩

/-- Counterexample for C6: with no Active worker but a Completed worker
still registered, wait does not fail with NoActiveWorkers; it returns the
empty snapshot after its timeout. -/
theorem C6_counterexample :
    c6state.activeTasks = [] ∧
    dictLookup c6state.completeTasks "w" = some c6ct ∧
    wait_quiescent c6state = (c6state, .ok ⟨[], [], []⟩) :=
  ⟨rfl, rfl, rfl⟩

/-- Witness for C6 at the empty module state. -/
theorem C6_witness :
    (wait_quiescent initState).2 = .error ServerErr.noActiveWorkers :=
  (C6_wait_error_iff_both_empty initState).mpr ⟨rfl, rfl⟩

/-- C7: approving a pending request with allow = true records a decision
whose updatedInput is exactly the original input blob of the parked
request, and the reply the woken handler sends back to the worker is that
same recorded decision. -/
theorem C7_allow_passes_input_verbatim (m : UnixSocketManager)
    (request_id : String) (perm : PendingPermission)
    (message : Option String)
    (hp : dictLookup m.pending request_id = some perm)
    (hw : perm.worker_id = m.worker_id) :
    ∃ m2 st, approve_request m request_id true message = .ok (m2, st) ∧
      dictLookup m2.pending request_id =
        some { perm with
          response := some ⟨request_id, true, some perm.input, none⟩,
          eventSet := true } ∧
      (completeRequest m2 request_id).2 =
        some ⟨request_id, true, some perm.input, none⟩ := by
  refine ⟨{ m with pending := dictUpdate m.pending request_id (fun p => { p with response := some ⟨request_id, true, some perm.input, none⟩, eventSet := true }) }, ⟨"approved", m.worker_id, request_id, perm.tool⟩, ?_, ?_, ?_⟩
  · simp [approve_request, hp, hw]
  · simp [dictLookup_dictUpdate_self, hp]
  · simp [completeRequest, dictLookup_dictUpdate_self, hp]

/-- The parked request of the C7 witness. -/
def c7perm : PendingPermission :=
  ⟨"r", "w", "Bash", .jobj [("command", .jstr "ls")], false, none⟩

/-- The broker of the C7 witness, holding one parked request. -/
def c7mgr : UnixSocketManager := ⟨"w", 300, [("r", c7perm)], 0, 100⟩

/-- Witness for C7 at a concrete broker and input blob. -/
theorem C7_witness :
    ∃ m2 st, approve_request c7mgr "r" true none = .ok (m2, st) ∧
      dictLookup m2.pending "r" =
        some { c7perm with
          response := some ⟨"r", true, some c7perm.input, none⟩,
          eventSet := true } ∧
      (completeRequest m2 "r").2 =
        some ⟨"r", true, some c7perm.input, none⟩ :=
  C7_allow_passes_input_verbatim c7mgr "r" c7perm none rfl rfl

theorem brokerReachable_pending_wid {m : UnixSocketManager}
    (h : BrokerReachable m) :
    ∀ p ∈ m.pending, p.2.worker_id = m.worker_id := by
  induction h with
  | init wid t =>
    intro p hp
    simp [initBroker] at hp
  | handle m req hm ih =>
    intro p hp
    by_cases hcap : m.maxRequests ≤ m.requestsHandled
    · simp only [handleRequestLine, if_pos hcap] at hp ⊢
      exact ih p hp
    · simp only [handleRequestLine, if_neg hcap] at hp ⊢
      rcases mem_dictInsert _ _ _ _ hp with h2 | h2
      · exact ih p h2
      · simp [h2]
  | complete m rid hm ih =>
    intro p hp
    rcases hl : dictLookup m.pending rid with _ | perm
    · simp only [completeRequest, hl] at hp ⊢
      exact ih p hp
    · simp only [completeRequest, hl] at hp ⊢
      exact ih p (mem_dictRemove _ _ _ hp)
  | approveStep m rid allow msg m2 st hm happ ih =>
    intro p hp
    simp only [approve_request] at happ
    rcases hl : dictLookup m.pending rid with _ | perm
    · rw [hl] at happ
      simp at happ
    · rw [hl] at happ
      by_cases hwm : perm.worker_id ≠ m.worker_id
      · simp [hwm] at happ
      · simp only [hwm, if_neg, ite_false, if_false] at happ
        simp at happ
        obtain ⟨hm2, hst⟩ := happ
        subst hm2
        simp only [] at hp ⊢
        rcases mem_dictUpdate _ _ _ _ hp with h2 | ⟨q, hq, hpq⟩
        · exact ih p h2
        · rw [hpq]
          exact ih q hq

/-- C10: for every broker state reachable through the operations the source
performs on the pending map, approve_request can never fail with the
Worker-ID-mismatch ToolError, because _handle_connection inserts every
PendingPermission with worker_id equal to the broker's own identity. -/
theorem C10_worker_mismatch_unreachable {m : UnixSocketManager}
    (h : BrokerReachable m) (request_id : String) (allow : Bool)
    (message : Option String) (expected got : String) :
    approve_request m request_id allow message ≠
      .error (.workerMismatch expected got) := by
  intro hcontra
  simp only [approve_request] at hcontra
  rcases hl : dictLookup m.pending request_id with _ | perm
  · rw [hl] at hcontra
    simp at hcontra
  · rw [hl] at hcontra
    have hwid : perm.worker_id = m.worker_id :=
      brokerReachable_pending_wid h (request_id, perm)
        (dictLookup_mem _ _ _ hl)
    simp [hwid] at hcontra

/-- The request line of the C10 witness: its wire worker_id field names a
different worker, which the insertion ignores. -/
def c10req : PermissionRequest := ⟨"r", "other", "Bash", .jobj []⟩

/-- The C10 witness broker: a fresh broker for worker w that has handled
one inbound request line. -/
def c10mgr : UnixSocketManager :=
  (handleRequestLine (initBroker "w" 300) c10req).1

/-- Witness for C10 at the concrete reachable broker. -/
theorem C10_witness :
    approve_request c10mgr "r" true none ≠
      .error (.workerMismatch "other" "w") :=
  C10_worker_mismatch_unreachable
    (BrokerReachable.handle (initBroker "w" 300) c10req
      (BrokerReachable.init "w" 300)) "r" true none "other" "w"

/-- The wire request behind the stale event of the C8 counterexample. -/
def c8req : PermissionRequest := ⟨"r", "a", "Bash", .jobj []⟩

/-- The C8 broker just after parking the request: the insertion also pushed
a PermissionEvent onto the process-wide queue
(unix_socket_manager.py:327). -/
def c8mgr1 : UnixSocketManager :=
  (handleRequestLine (initBroker "a" 300) c8req).1

/-- The C8 broker after the supervisor approved the request. -/
def c8mgr2 : UnixSocketManager :=
  match approve_request c8mgr1 "r" true none with
  | .ok (m2, _) => m2
  | .error _ => c8mgr1

/-- The C8 broker after the woken handler sent the decision and deleted the
pending entry: its pending map is empty again, but the PermissionEvent
pushed at insertion time is still sitting in the queue. -/
def c8mgr3 : UnixSocketManager := (completeRequest c8mgr2 "r").1

/-- Quiescent registry of the C8 counterexample: one Active worker whose
runner is still running, its broker with an already-served (hence empty)
pending map, and the stale PermissionEvent left in the event queue. -/
def c8state : ServerState :=
  ⟨[("a", ⟨"a", .active, some (runningTask "a"), none, some c8mgr3, none⟩)],
   [("a", ⟨"a", runningTask "a", none⟩)], [],
   [.permission "a" c8req]⟩

/-- Counterexample for C8: on this quiescent registry the first wait
consumes the stale queued PermissionEvent and returns
pending_permissions = [r] even though no request is pending any more,
while the immediately repeated wait (no new events) returns the empty
snapshot: the two calls disagree on pending_permissions, so wait is not
idempotent on a quiescent state. -/
theorem C8_counterexample :
    (wait_quiescent c8state).2 = .ok ⟨[], [], [c8req]⟩ ∧
    (wait_quiescent (wait_quiescent c8state).1).2 = .ok ⟨[], [], []⟩ ∧
    ([c8req] : List PermissionRequest) ≠ [] :=
  ⟨rfl, rfl, by simp⟩

/-- C8 (amended): wait is idempotent on a quiescent registry whose event
queue is drained and whose flush delivers nothing new: when a wait call on
a state with an empty event queue returns a snapshot with empty completed
and failed lists (the only snapshots the frozen source can produce, since
a finished runner makes the flush raise instead of returning), the call
leaves the state unchanged and an immediately repeated wait returns the
identical snapshot. The drained-queue hypothesis is necessary by the
counterexample: a stale queued PermissionEvent is consumed by one call and
not the next. -/
theorem C8_wait_idempotent_on_drained (s s1 : ServerState)
    (snap : WorkerState)
    (hq : s.eventQueue = [])
    (hw : wait_quiescent s = (s1, .ok snap))
    (hc : snap.completed = []) (hf : snap.failed = []) :
    s1 = s ∧ wait_quiescent s1 = (s1, .ok snap) := by
  by_cases hcond : (s.activeTasks.isEmpty && s.completeTasks.isEmpty) = true
  · simp [wait_quiescent, hcond, Prod.ext_iff] at hw
  · rcases hfr : flush_completed_tasks s with ⟨s2, r⟩
    simp only [wait_quiescent, if_neg hcond, hfr] at hw
    cases r with
    | error e => simp [Prod.ext_iff] at hw
    | ok cf =>
      rcases cf with ⟨c, f⟩
      simp only [] at hw
      split at hw
      · rename_i hret
        simp only [Prod.mk.injEq, Except.ok.injEq] at hw
        obtain ⟨hs12, hsnap⟩ := hw
        subst hsnap
        simp only [] at hc hf
        subst hc
        subst hf
        have hs2 : s2 = s := flush_noop s s2 hfr
        subst hs2
        subst hs12
        refine ⟨rfl, ?_⟩
        simp [wait_quiescent, hcond, hfr, hret]
        intro hp0
        rw [hp0] at hret
        simp at hret
      · rename_i hret
        simp at hret
        obtain ⟨⟨hc0, hf0⟩, hp0⟩ := hret
        subst hc0
        subst hf0
        have hs2 : s2 = s := flush_noop s s2 hfr
        subst hs2
        rw [hq] at hw
        simp only [Prod.mk.injEq, Except.ok.injEq] at hw
        obtain ⟨hs12, hsnap⟩ := hw
        subst hsnap
        subst hs12
        refine ⟨rfl, ?_⟩
        simp [wait_quiescent, hcond, hfr, hp0, hq]

/-- Parked request of the C8 witness broker. -/
def c8witPerm : PendingPermission := ⟨"r", "a", "Bash", .jobj [], false, none⟩

/-- Broker of the C8 witness worker, holding one parked request. -/
def c8witMgr : UnixSocketManager := ⟨"a", 300, [("r", c8witPerm)], 0, 100⟩

/-- Quiescent registry of the C8 witness: one Active worker with a running
runner and a live broker parking one request; empty event queue. -/
def c8witState : ServerState :=
  ⟨[("a", ⟨"a", .active, some (runningTask "a"), none, some c8witMgr,
     none⟩)],
   [("a", ⟨"a", runningTask "a", none⟩)], [], []⟩

/-- State left by the first wait call of the C8 witness. -/
def c8witState1 : ServerState := (wait_quiescent c8witState).1

/-- Snapshot returned by the first wait call of the C8 witness. -/
def c8witSnap : WorkerState := ⟨[], [], [⟨"r", "a", "Bash", .jobj []⟩]⟩

/-- Witness for C8 on a quiescent broker-holding registry: one worker is
still running and its broker parks one request, so wait returns the
pending-permissions snapshot, and the repeated wait returns the same
snapshot with the state unchanged. -/
theorem C8_witness :
    c8witState1 = c8witState ∧
    wait_quiescent c8witState1 = (c8witState1, .ok c8witSnap) :=
  C8_wait_idempotent_on_drained c8witState c8witState1 c8witSnap rfl rfl rfl
    rfl
